import Mathlib

/-!
Shallow embedding of `mycontroller.py`, the P4Runtime controller of the
software-defined-network experiment: the static topology constants, the four
table-entry builders, the rule set installed by `main`, the counter-reading
helpers of the polling loop, and the event trace of one run (log-file
truncation, pipeline pushes, rule writes, polling cycles).
-/

namespace SDN

/-- The three BMv2 switches `s1`, `s2`, `s3` of the fixed topology. -/
inductive Switch where
  | s1
  | s2
  | s3
deriving DecidableEq, Repr

/-- The `name` attribute of a switch connection (`mycontroller.py` lines 192-206). -/
def Switch.name : Switch → String
  | .s1 => "s1"
  | .s2 => "s2"
  | .s3 => "s3"

-- Host constants (`mycontroller.py` lines 20-25).
def H1_IP : String := "10.0.1.1"
def H1_MAC : String := "08:00:00:00:01:11"
def H2_IP : String := "10.0.2.2"
def H2_MAC : String := "08:00:00:00:02:22"
def H3_IP : String := "10.0.3.3"
def H3_MAC : String := "08:00:00:00:03:33"

-- Tunnel id constants (`mycontroller.py` lines 28-33).
def TID_S1_S2 : Nat := 100
def TID_S2_S1 : Nat := 101
def TID_S1_S3 : Nat := 200
def TID_S3_S1 : Nat := 201
def TID_S2_S3 : Nat := 300
def TID_S3_S2 : Nat := 301

-- Switch port constants (`mycontroller.py` lines 36-46).
def S1_H1_PORT : Nat := 1
def S1_S2_PORT : Nat := 2
def S1_S3_PORT : Nat := 3
def S2_H2_PORT : Nat := 1
def S2_S1_PORT : Nat := 2
def S2_S3_PORT : Nat := 3
def S3_H3_PORT : Nat := 1
def S3_S1_PORT : Nat := 2
def S3_S2_PORT : Nat := 3

/-- The two P4 tables targeted by the controller's table entries. -/
inductive TableName where
  | ipv4_lpm
  | myTunnel_exact
deriving DecidableEq, Repr

/-- The four actions used in the controller's table entries. -/
inductive ActionName where
  | ipv4_forward
  | myTunnel_ingress
  | myTunnel_forward
  | myTunnel_egress
deriving DecidableEq, Repr

/-- A table entry's match key: an LPM match on `hdr.ipv4.dstAddr` (address and
prefix length) or an exact match on `hdr.myTunnel.dst_id`. -/
inductive MatchKey where
  | lpm (dstAddr : String) (plen : Nat)
  | exact (dst_id : Nat)
deriving DecidableEq, Repr

/-- A forwarding rule as written by `sw.WriteTableEntry`: target switch, table,
match key, action, and the action parameters (`dstAddr`, `port`, `dst_id`),
each present exactly when the corresponding builder supplies it. -/
structure Rule where
  sw : Switch
  table : TableName
  mkey : MatchKey
  action : ActionName
  dstAddr : Option String
  port : Option Nat
  dst_id : Option Nat
deriving DecidableEq, Repr

/-- `writeL3ForwardRule` (`mycontroller.py` lines 49-64): `ipv4_lpm` entry
matching `dst_ip_addr/32` with action `ipv4_forward(dstAddr, port)`. -/
def writeL3ForwardRule (sw : Switch) (dst_ip_addr dst_eth_addr : String)
    (port : Nat) : Rule :=
  { sw := sw, table := .ipv4_lpm, mkey := .lpm dst_ip_addr 32,
    action := .ipv4_forward, dstAddr := some dst_eth_addr, port := some port,
    dst_id := none }

/-- `writeTunnelIngressRule` (`mycontroller.py` lines 66-80): `ipv4_lpm` entry
matching `dst_ip_addr/32` with action `myTunnel_ingress(dst_id)`. -/
def writeTunnelIngressRule (sw : Switch) (dst_ip_addr : String)
    (tunnel_id : Nat) : Rule :=
  { sw := sw, table := .ipv4_lpm, mkey := .lpm dst_ip_addr 32,
    action := .myTunnel_ingress, dstAddr := none, port := none,
    dst_id := some tunnel_id }

/-- `writeTunnelTransitRule` (`mycontroller.py` lines 82-97): `myTunnel_exact`
entry matching `tunnel_id` with action `myTunnel_forward(port)`. -/
def writeTunnelTransitRule (sw : Switch) (tunnel_id port : Nat) : Rule :=
  { sw := sw, table := .myTunnel_exact, mkey := .exact tunnel_id,
    action := .myTunnel_forward, dstAddr := none, port := some port,
    dst_id := none }

/-- `writeTunnelEgressRule` (`mycontroller.py` lines 99-114): `myTunnel_exact`
entry matching `tunnel_id` with action `myTunnel_egress(dstAddr, port)`. -/
def writeTunnelEgressRule (sw : Switch) (tunnel_id : Nat)
    (dst_eth_addr : String) (port : Nat) : Rule :=
  { sw := sw, table := .myTunnel_exact, mkey := .exact tunnel_id,
    action := .myTunnel_egress, dstAddr := some dst_eth_addr,
    port := some port, dst_id := none }

/-- The rule set written by `main`, in program order
(`mycontroller.py` lines 229-265). -/
def installedRules : List Rule :=
  [writeL3ForwardRule .s1 H1_IP H1_MAC S1_H1_PORT,
   writeL3ForwardRule .s2 H2_IP H2_MAC S2_H2_PORT,
   writeL3ForwardRule .s3 H3_IP H3_MAC S3_H3_PORT,
   writeTunnelIngressRule .s1 H2_IP TID_S1_S2,
   writeTunnelTransitRule .s1 TID_S1_S2 S1_S2_PORT,
   writeTunnelEgressRule .s2 TID_S1_S2 H2_MAC S2_H2_PORT,
   writeTunnelIngressRule .s2 H1_IP TID_S2_S1,
   writeTunnelTransitRule .s2 TID_S2_S1 S2_S1_PORT,
   writeTunnelEgressRule .s1 TID_S2_S1 H1_MAC S1_H1_PORT,
   writeTunnelIngressRule .s1 H3_IP TID_S1_S3,
   writeTunnelTransitRule .s1 TID_S1_S3 S1_S3_PORT,
   writeTunnelEgressRule .s3 TID_S1_S3 H3_MAC S3_H3_PORT,
   writeTunnelIngressRule .s3 H1_IP TID_S3_S1,
   writeTunnelTransitRule .s3 TID_S3_S1 S3_S1_PORT,
   writeTunnelEgressRule .s1 TID_S3_S1 H1_MAC S1_H1_PORT,
   writeTunnelIngressRule .s2 H3_IP TID_S2_S3,
   writeTunnelTransitRule .s2 TID_S2_S3 S2_S3_PORT,
   writeTunnelEgressRule .s3 TID_S2_S3 H3_MAC S3_H3_PORT,
   writeTunnelIngressRule .s3 H2_IP TID_S3_S2,
   writeTunnelTransitRule .s3 TID_S3_S2 S3_S2_PORT,
   writeTunnelEgressRule .s2 TID_S3_S2 H2_MAC S2_H2_PORT]

/-- A rule is a Local Delivery rule when its action is `ipv4_forward`. -/
def isLocalDeliveryRule (r : Rule) : Bool := r.action == .ipv4_forward

/-- A rule is a Tunnel Ingress rule when its action is `myTunnel_ingress`. -/
def isIngressRule (r : Rule) : Bool := r.action == .myTunnel_ingress

/-- A rule is a Tunnel Transit rule when its action is `myTunnel_forward`. -/
def isTransitRule (r : Rule) : Bool := r.action == .myTunnel_forward

/-- A rule is a Tunnel Egress rule when its action is `myTunnel_egress`. -/
def isEgressRule (r : Rule) : Bool := r.action == .myTunnel_egress

/-- The tunnel identifier a rule concerns: the exact-match key for transit and
egress rules, the `dst_id` action parameter for ingress rules. -/
def ruleTunnelId (r : Rule) : Option Nat :=
  match r.mkey with
  | .exact t => some t
  | .lpm _ _ => r.dst_id

/-- Whether a rule belongs to the unordered link carrying directed tunnel ids
`a` and `b`. -/
def onLink (a b : Nat) (r : Rule) : Bool :=
  ruleTunnelId r == some a || ruleTunnelId r == some b

/-! ## Counter reading (`read_counter`, `process_link_counters`) -/

/-- One counter entry from a `ReadCounters` response:
`counter.data.packet_count` and `counter.data.byte_count`. -/
structure CounterEntry where
  packet_count : Nat
  byte_count : Nat
deriving DecidableEq, Repr

/-- The outcome of one `sw.ReadCounters(...)` call as observed by
`read_counter`: either an exception (its message) or the list of responses,
each carrying its list of counter entities. -/
def ReadResult : Type := Except String (List (List CounterEntry))

/-- A polling environment: what each `ReadCounters(counter_name, index)` call
on each switch yields during one cycle. -/
def Env : Type := Switch → String → Nat → ReadResult

def ingressCounterName : String := "MyIngress.ingressTunnelCounter"

def egressCounterName : String := "MyIngress.egressTunnelCounter"

/-- The stderr message printed by `read_counter` on an exception
(`mycontroller.py` line 148). -/
def readErrMsg (sw : Switch) (counter_name : String) (index : Nat)
    (e : String) : String :=
  "Error reading counter " ++ counter_name ++ "[" ++ toString index ++
    "] from " ++ sw.name ++ ": " ++ e

/-- The first counter entity across the response stream, as found by the
nested `for` loops of `read_counter` (`mycontroller.py` lines 143-146). -/
def firstCounterEntry : List (List CounterEntry) → Option CounterEntry
  | [] => none
  | [] :: rest => firstCounterEntry rest
  | (c :: _) :: _ => some c

/-- `read_counter` (`mycontroller.py` lines 138-150): returns the
`(packet_count, byte_count)` of the first counter entry when one exists and
`(0, 0)` otherwise; the second component is the list of stderr messages it
prints (one on exception, none otherwise). -/
def read_counter (env : Env) (sw : Switch) (counter_name : String)
    (index : Nat) : (Nat × Nat) × List String :=
  match env sw counter_name index with
  | .error e => ((0, 0), [readErrMsg sw counter_name index e])
  | .ok responses =>
    match firstCounterEntry responses with
    | some c => ((c.packet_count, c.byte_count), [])
    | none => ((0, 0), [])

-- Log file paths (`mycontroller.py` lines 181-183).
def s1s2_log : String := "S1S2.txt"
def s1s3_log : String := "S1S3.txt"
def s2s3_log : String := "S2S3.txt"

/-- What one `process_link_counters` call computes: the timestamp it takes,
the directed path (source, destination, tunnel id), the two counter readings,
the stderr messages of each reading, and the log file it appends to. -/
structure LinkObs where
  timestamp : String
  src : Switch
  dst : Switch
  tid : Nat
  p_ing : Nat
  b_ing : Nat
  p_eg : Nat
  b_eg : Nat
  errsIng : List String
  errsEg : List String
  logFile : String
deriving DecidableEq, Repr

/-- `process_link_counters` (`mycontroller.py` lines 152-174): reads the
ingress counter on the source switch and the egress counter on the destination
switch, both at index `tunnel_id`, and records both readings. -/
def process_link_counters (env : Env) (timestamp : String)
    (sw_src sw_dst : Switch) (tunnel_id : Nat) (log_file : String) : LinkObs :=
  let ing := read_counter env sw_src ingressCounterName tunnel_id
  let eg := read_counter env sw_dst egressCounterName tunnel_id
  { timestamp := timestamp, src := sw_src, dst := sw_dst, tid := tunnel_id,
    p_ing := ing.1.1, b_ing := ing.1.2, p_eg := eg.1.1, b_eg := eg.1.2,
    errsIng := ing.2, errsEg := eg.2, logFile := log_file }

/-- The line appended for the ingress (sent) reading
(`mycontroller.py` line 165). -/
def file_msg_ing (o : LinkObs) : String :=
  o.timestamp ++ " " ++ o.src.name ++ "发送" ++ toString o.p_ing ++
    "个包, 计数器编号为: " ++ toString o.tid

/-- The line appended for the egress (received) reading
(`mycontroller.py` line 172). -/
def file_msg_eg (o : LinkObs) : String :=
  o.timestamp ++ " " ++ o.dst.name ++ "收到" ++ toString o.p_eg ++
    "个包, 计数器编号为: " ++ toString o.tid

/-- The six `process_link_counters` calls of one polling cycle, in program
order (`mycontroller.py` lines 277-287); `ts i` is the timestamp
`datetime.datetime.now().isoformat()` takes at the cycle's `i`-th call. -/
def cycleObs (env : Env) (ts : Nat → String) : List LinkObs :=
  [process_link_counters env (ts 0) .s1 .s2 TID_S1_S2 s1s2_log,
   process_link_counters env (ts 1) .s2 .s1 TID_S2_S1 s1s2_log,
   process_link_counters env (ts 2) .s1 .s3 TID_S1_S3 s1s3_log,
   process_link_counters env (ts 3) .s3 .s1 TID_S3_S1 s1s3_log,
   process_link_counters env (ts 4) .s2 .s3 TID_S2_S3 s2s3_log,
   process_link_counters env (ts 5) .s3 .s2 TID_S3_S2 s2s3_log]

/-! ## The event trace of one run of `main` -/

/-- An externally visible action of `main`, in the order the script performs
them: truncating a log file (`open(f, 'w').close()`), a master arbitration
update, a pipeline push (`SetForwardingPipelineConfig`), a table-entry write
(`WriteTableEntry`), a counter read (`ReadCounters`), and an append to a log
file (`log_to_file`). -/
inductive Event where
  | truncateFile (f : String)
  | arbitration (sw : Switch)
  | setPipeline (sw : Switch)
  | writeRule (r : Rule)
  | readCounters (sw : Switch) (counter : String) (index : Nat)
  | appendFile (f : String) (line : String)
deriving DecidableEq, Repr

/-- Whether an event truncates a log file. -/
def Event.isTruncate : Event → Bool
  | .truncateFile _ => true
  | _ => false

/-- Whether an event writes a forwarding rule to switch `sw`. -/
def isRuleWriteTo (sw : Switch) : Event → Bool
  | .writeRule r => r.sw == sw
  | _ => false

/-- Whether an event pushes the pipeline image to switch `sw`. -/
def isPipelinePush (sw : Switch) : Event → Bool
  | .setPipeline s => s == sw
  | _ => false

/-- The line appended by an append event, if any. -/
def eventLine : Event → Option String
  | .appendFile _ line => some line
  | _ => none

/-- The externally visible actions of one `process_link_counters` call, in
program order: ingress read, ingress append, egress read, egress append
(`mycontroller.py` lines 163-174). -/
def obsEvents (o : LinkObs) : List Event :=
  [.readCounters o.src ingressCounterName o.tid,
   .appendFile o.logFile (file_msg_ing o),
   .readCounters o.dst egressCounterName o.tid,
   .appendFile o.logFile (file_msg_eg o)]

/-- The externally visible actions of one polling cycle. -/
def cycleEvents (env : Env) (ts : Nat → String) : List Event :=
  (cycleObs env ts).flatMap obsEvents

/-- The actions of `main` before the first rule write: the three log-file
truncations (`mycontroller.py` lines 186-188), the three arbitration updates
(lines 209-211) and the three pipeline pushes (lines 214-225), in program
order. -/
def provisioningPrefixEvents : List Event :=
  [.truncateFile s1s2_log, .truncateFile s1s3_log, .truncateFile s2s3_log,
   .arbitration .s1, .arbitration .s2, .arbitration .s3,
   .setPipeline .s1, .setPipeline .s2, .setPipeline .s3]

/-- All startup actions of `main`: the prefix above followed by the 21 rule
writes of `installedRules`. -/
def startupEvents : List Event :=
  provisioningPrefixEvents ++ installedRules.map Event.writeRule

/-- The actions of the first `k` polling cycles; `env c` and `ts c` are the
read outcomes and timestamps of cycle `c`. -/
def pollEvents (env : Nat → Env) (ts : Nat → Nat → String) : Nat → List Event
  | 0 => []
  | k + 1 => pollEvents env ts k ++ cycleEvents (env k) (ts k)

/-- The trace of one run of `main` observed through its first `k` polling
cycles. -/
def programTrace (env : Nat → Env) (ts : Nat → Nat → String) (k : Nat) :
    List Event :=
  startupEvents ++ pollEvents env ts k

/-- Embedding of the tail of `main` (`mycontroller.py` lines 289-294): how
the `try` block around connection, provisioning and polling is left. The body
loops forever, so it is left only by an exception: a `KeyboardInterrupt`
(operator signal), a `grpc.RpcError` (transport failure), or any other
exception. -/
inductive TryExit where
  | keyboardInterrupt
  | rpcError
  | otherException
deriving DecidableEq, Repr

/-- The actions `main` performs after leaving the `try` block, per exit kind:
`except KeyboardInterrupt` prints and falls through to
`ShutdownAllSwitchConnections()`; `except grpc.RpcError` calls
`printGrpcError` and falls through likewise; any other exception matches no
`except` clause and, with no `finally`, propagates out of `main` before
line 294 can run. -/
def mainExitActions : TryExit → List String
  | .keyboardInterrupt => ["print: Shutting down.", "ShutdownAllSwitchConnections"]
  | .rpcError => ["printGrpcError", "ShutdownAllSwitchConnections"]
  | .otherException => []

/-! ## Concrete polling environments, for witnesses and counterexamples -/

/-- Every counter read returns a response stream with no counter entity. -/
def envEmpty : Env := fun _ _ _ => .ok []

/-- Every counter read raises an exception with message `boom`. -/
def envErr : Env := fun _ _ _ => .error "boom"

/-- Every counter read returns one entity: 7 packets, 700 bytes. -/
def envEntry : Env := fun _ _ _ => .ok [[⟨7, 700⟩]]

/-- A fixed timestamp for every call of a cycle. -/
def tsConst : Nat → String := fun _ => "2024-01-01T00:00:00"

/-! ## Claim theorems -/

/-- C1: the rule set installed by `main` contains exactly 3 Local Delivery
rules, one per host on that host's attachment device, and for each of the 3
unordered links exactly 2 Tunnel Ingress, 2 Tunnel Transit and 2 Tunnel
Egress rules (with 6 of each kind in total, so none outside the links), and
the 6 tunnel identifiers are pairwise distinct. -/
theorem C1_fullmesh_rule_counts :
    ((installedRules.filter isLocalDeliveryRule).map fun r => (r.sw, r.mkey)) =
      [(.s1, .lpm H1_IP 32), (.s2, .lpm H2_IP 32), (.s3, .lpm H3_IP 32)] ∧
    (installedRules.countP fun r => isIngressRule r && onLink TID_S1_S2 TID_S2_S1 r) = 2 ∧
    (installedRules.countP fun r => isTransitRule r && onLink TID_S1_S2 TID_S2_S1 r) = 2 ∧
    (installedRules.countP fun r => isEgressRule r && onLink TID_S1_S2 TID_S2_S1 r) = 2 ∧
    (installedRules.countP fun r => isIngressRule r && onLink TID_S1_S3 TID_S3_S1 r) = 2 ∧
    (installedRules.countP fun r => isTransitRule r && onLink TID_S1_S3 TID_S3_S1 r) = 2 ∧
    (installedRules.countP fun r => isEgressRule r && onLink TID_S1_S3 TID_S3_S1 r) = 2 ∧
    (installedRules.countP fun r => isIngressRule r && onLink TID_S2_S3 TID_S3_S2 r) = 2 ∧
    (installedRules.countP fun r => isTransitRule r && onLink TID_S2_S3 TID_S3_S2 r) = 2 ∧
    (installedRules.countP fun r => isEgressRule r && onLink TID_S2_S3 TID_S3_S2 r) = 2 ∧
    installedRules.countP isIngressRule = 6 ∧
    installedRules.countP isTransitRule = 6 ∧
    installedRules.countP isEgressRule = 6 ∧
    [TID_S1_S2, TID_S2_S1, TID_S1_S3, TID_S3_S1, TID_S2_S3, TID_S3_S2].Nodup := by
  decide

/-- C2: `main` installs on `s1` a Tunnel Ingress rule matching destination IP
10.0.2.2 with tunnel id 100, on `s1` a Tunnel Transit rule for tunnel id 100
forwarding out port 2 (`s1`'s port toward `s2`), and on `s2` a Tunnel Egress
rule for tunnel id 100 setting `h2`'s link-layer address 08:00:00:00:02:22 and
forwarding out port 1 (`s2`'s host port). -/
theorem C2_reference_tunnel_100_rules :
    ({ sw := .s1, table := .ipv4_lpm, mkey := .lpm "10.0.2.2" 32,
       action := .myTunnel_ingress, dstAddr := none, port := none,
       dst_id := some 100 } : Rule) ∈ installedRules ∧
    ({ sw := .s1, table := .myTunnel_exact, mkey := .exact 100,
       action := .myTunnel_forward, dstAddr := none, port := some 2,
       dst_id := none } : Rule) ∈ installedRules ∧
    ({ sw := .s2, table := .myTunnel_exact, mkey := .exact 100,
       action := .myTunnel_egress, dstAddr := some "08:00:00:00:02:22",
       port := some 1, dst_id := none } : Rule) ∈ installedRules ∧
    S1_S2_PORT = 2 ∧ S2_H2_PORT = 1 := by
  decide

/-- C5: on every single device the installed rules occupy pairwise-disjoint
match spaces: no two rules written to the same table of the same device carry
the same match key; in particular, on each device the destination IPs matched
in `ipv4_lpm` are pairwise distinct and the tunnel ids matched in
`myTunnel_exact` are pairwise distinct. -/
theorem C5_disjoint_match_spaces :
    installedRules.Pairwise
      (fun r r' => r.sw = r'.sw → r.table = r'.table → r.mkey ≠ r'.mkey) ∧
    ((installedRules.filter fun r => r.sw == .s1 && r.table == .ipv4_lpm).map
      fun r => r.mkey).Nodup ∧
    ((installedRules.filter fun r => r.sw == .s2 && r.table == .ipv4_lpm).map
      fun r => r.mkey).Nodup ∧
    ((installedRules.filter fun r => r.sw == .s3 && r.table == .ipv4_lpm).map
      fun r => r.mkey).Nodup ∧
    ((installedRules.filter fun r => r.sw == .s1 && r.table == .myTunnel_exact).map
      fun r => r.mkey).Nodup ∧
    ((installedRules.filter fun r => r.sw == .s2 && r.table == .myTunnel_exact).map
      fun r => r.mkey).Nodup ∧
    ((installedRules.filter fun r => r.sw == .s3 && r.table == .myTunnel_exact).map
      fun r => r.mkey).Nodup := by
  decide

/-- C8: in every polling cycle the poller produces exactly one Link
Observation record per directed Tunnel Path: the cycle's observation list
visits the 6 directed paths exactly once each, and each record's two readings
are the ingress counter read on the source device and the egress counter read
on the destination device, both at that path's tunnel identifier. -/
theorem C8_one_observation_per_directed_path (env : Env) (ts : Nat → String) :
    (cycleObs env ts).map (fun o => (o.src, o.dst, o.tid)) =
      [(.s1, .s2, TID_S1_S2), (.s2, .s1, TID_S2_S1), (.s1, .s3, TID_S1_S3),
       (.s3, .s1, TID_S3_S1), (.s2, .s3, TID_S2_S3), (.s3, .s2, TID_S3_S2)] ∧
    ((cycleObs env ts).map fun o => (o.src, o.dst, o.tid)).Nodup ∧
    (cycleObs env ts).map (fun o => ((o.p_ing, o.b_ing), (o.p_eg, o.b_eg))) =
      [((read_counter env .s1 ingressCounterName TID_S1_S2).1,
        (read_counter env .s2 egressCounterName TID_S1_S2).1),
       ((read_counter env .s2 ingressCounterName TID_S2_S1).1,
        (read_counter env .s1 egressCounterName TID_S2_S1).1),
       ((read_counter env .s1 ingressCounterName TID_S1_S3).1,
        (read_counter env .s3 egressCounterName TID_S1_S3).1),
       ((read_counter env .s3 ingressCounterName TID_S3_S1).1,
        (read_counter env .s1 egressCounterName TID_S3_S1).1),
       ((read_counter env .s2 ingressCounterName TID_S2_S3).1,
        (read_counter env .s3 egressCounterName TID_S2_S3).1),
       ((read_counter env .s3 ingressCounterName TID_S3_S2).1,
        (read_counter env .s2 egressCounterName TID_S3_S2).1)] := by
  refine ⟨rfl, ?_, rfl⟩
  show ([(.s1, .s2, TID_S1_S2), (.s2, .s1, TID_S2_S1), (.s1, .s3, TID_S1_S3),
       (.s3, .s1, TID_S3_S1), (.s2, .s3, TID_S2_S3), (.s3, .s2, TID_S3_S2)] :
      List (Switch × Switch × Nat)).Nodup
  decide

/-- C10: `read_counter` is total and never propagates an exception: it returns
the packet and byte counts of the first counter entry of the response when one
exists, and `(0, 0)` both when the read raises an exception and when the
response stream has no counter entry; in the latter case it prints nothing,
so absence of data is indistinguishable from a zero reading at its
interface. -/
theorem C10_read_counter_total (env : Env) (sw : Switch) (c : String)
    (i : Nat) :
    (∀ e, env sw c i = .error e →
      read_counter env sw c i = ((0, 0), [readErrMsg sw c i e])) ∧
    (∀ rs, env sw c i = .ok rs → firstCounterEntry rs = none →
      read_counter env sw c i = ((0, 0), [])) ∧
    (∀ rs ce, env sw c i = .ok rs → firstCounterEntry rs = some ce →
      read_counter env sw c i = ((ce.packet_count, ce.byte_count), [])) := by
  refine ⟨?_, ?_, ?_⟩ <;> intros <;> simp [read_counter, *]

/-- Witness for C10 at three concrete environments: an exception, an empty
response stream, and a one-entry response. -/
theorem C10_read_counter_total_witness :
    read_counter envErr .s1 ingressCounterName 100 =
      ((0, 0), [readErrMsg .s1 ingressCounterName 100 "boom"]) ∧
    read_counter envEmpty .s1 ingressCounterName 100 = ((0, 0), []) ∧
    read_counter envEntry .s2 egressCounterName 100 = ((7, 700), []) :=
  ⟨(C10_read_counter_total envErr .s1 ingressCounterName 100).1 "boom" rfl,
   (C10_read_counter_total envEmpty .s1 ingressCounterName 100).2.1 [] rfl rfl,
   (C10_read_counter_total envEntry .s2 egressCounterName 100).2.2
     [[⟨7, 700⟩]] ⟨7, 700⟩ rfl rfl⟩

/-- Counterexample to C3 as stated: in the cycle where every read returns a
response with no counter entry (a failed reading per the claim), the reading
is zero-valued but no message at all is reported on the operator-visible
channel, so a no-entry failure is not reported. -/
theorem C3_silent_empty_read_cex :
    envEmpty .s1 ingressCounterName TID_S1_S2 = .ok [] ∧
    (read_counter envEmpty .s1 ingressCounterName TID_S1_S2).1 = (0, 0) ∧
    ((cycleObs envEmpty tsConst).map fun o => (o.errsIng, o.errsEg)) =
      List.replicate 6 ([], []) := by
  refine ⟨rfl, rfl, rfl⟩

/-- C3 amended: in every polling cycle all 6 observations are produced
whatever each read returns, so one failed reading never aborts the cycle or
the loop; a reading that raises an exception is reported on stderr and
treated as a zero-valued snapshot; a reading that returns no entry is treated
as a zero-valued snapshot silently, without a report. -/
theorem C3_read_failure_policy (env : Env) (ts : Nat → String) :
    ((cycleObs env ts).map fun o => (o.src, o.dst, o.tid)) =
      [(.s1, .s2, TID_S1_S2), (.s2, .s1, TID_S2_S1), (.s1, .s3, TID_S1_S3),
       (.s3, .s1, TID_S3_S1), (.s2, .s3, TID_S2_S3), (.s3, .s2, TID_S3_S2)] ∧
    (∀ sw c i e, env sw c i = .error e →
      read_counter env sw c i = ((0, 0), [readErrMsg sw c i e])) ∧
    (∀ sw c i, env sw c i = .ok [] →
      read_counter env sw c i = ((0, 0), [])) := by
  refine ⟨rfl, ?_, ?_⟩ <;> intros <;> simp [read_counter, firstCounterEntry, *]

/-- Witness for C3 amended: the all-exceptions cycle still yields all 6
observations, an exception read is reported and zero-valued, and a no-entry
read is zero-valued. -/
theorem C3_read_failure_policy_witness :
    ((cycleObs envErr tsConst).map fun o => (o.src, o.dst, o.tid)) =
      [(.s1, .s2, TID_S1_S2), (.s2, .s1, TID_S2_S1), (.s1, .s3, TID_S1_S3),
       (.s3, .s1, TID_S3_S1), (.s2, .s3, TID_S2_S3), (.s3, .s2, TID_S3_S2)] ∧
    read_counter envErr .s1 ingressCounterName 100 =
      ((0, 0), [readErrMsg .s1 ingressCounterName 100 "boom"]) ∧
    read_counter envEmpty .s1 ingressCounterName 100 = ((0, 0), []) :=
  ⟨(C3_read_failure_policy envErr tsConst).1,
   (C3_read_failure_policy envErr tsConst).2.1 .s1 ingressCounterName 100
     "boom" rfl,
   (C3_read_failure_policy envEmpty tsConst).2.2 .s1 ingressCounterName 100
     rfl⟩

/-- Counterexample to C7 as stated: the first line the cycle appends contains
neither the English word `sent` nor `received` nor the literal text
`counter id:` — the program writes the Chinese words 发送/收到 and
计数器编号为: instead. -/
theorem C7_english_format_cex :
    (cycleEvents envEmpty tsConst)[1]? =
      some (.appendFile s1s2_log
        "2024-01-01T00:00:00 s1发送0个包, 计数器编号为: 100") ∧
    ¬ ("sent".toList <:+:
        "2024-01-01T00:00:00 s1发送0个包, 计数器编号为: 100".toList) ∧
    ¬ ("received".toList <:+:
        "2024-01-01T00:00:00 s1发送0个包, 计数器编号为: 100".toList) ∧
    ¬ ("counter id:".toList <:+:
        "2024-01-01T00:00:00 s1发送0个包, 计数器编号为: 100".toList) := by
  refine ⟨rfl, by decide, by decide, by decide⟩

/-- C7 amended: every line appended to a per-link log destination has the
form `<timestamp> <device>发送<N>个包, 计数器编号为: <tunnel-id>` for a sent
reading or `<timestamp> <device>收到<N>个包, 计数器编号为: <tunnel-id>` for a
received reading — the timestamp, the device name, the Chinese word for
sent/received with the packet count, and the tunnel identifier after the
literal Chinese text `计数器编号为:`. -/
theorem C7_line_format (env : Env) (ts : Nat → String) :
    (cycleEvents env ts).filterMap eventLine =
      (cycleObs env ts).flatMap fun o =>
        [o.timestamp ++ " " ++ o.src.name ++ "发送" ++ toString o.p_ing ++
           "个包, 计数器编号为: " ++ toString o.tid,
         o.timestamp ++ " " ++ o.dst.name ++ "收到" ++ toString o.p_eg ++
           "个包, 计数器编号为: " ++ toString o.tid] := rfl

/-- One polling cycle truncates nothing: its events are counter reads and
log appends only. -/
theorem cycleEvents_truncate_free (env : Env) (ts : Nat → String) :
    (cycleEvents env ts).countP Event.isTruncate = 0 := rfl

/-- No polling cycle ever truncates a log file. -/
theorem pollEvents_truncate_free (env : Nat → Env) (ts : Nat → Nat → String)
    (k : Nat) : (pollEvents env ts k).countP Event.isTruncate = 0 := by
  induction k with
  | zero => rfl
  | succ k ih =>
    simp [pollEvents, List.countP_append, ih, cycleEvents_truncate_free]

/-- C6: the three log destinations are truncated exactly once each, as the
very first three actions of the run — before any device is contacted and
before any observation is appended — and no later action of the trace ever
truncates a file again; and each observation of every cycle is appended to
the destination of the unordered link it belongs to, both directed tunnel
paths of one physical link sharing the same file. -/
theorem C6_log_truncation_once_and_link_files (env : Nat → Env)
    (ts : Nat → Nat → String) (k j : Nat) :
    (programTrace env ts k).take 3 =
      [.truncateFile s1s2_log, .truncateFile s1s3_log,
       .truncateFile s2s3_log] ∧
    ((programTrace env ts k).drop 3).countP Event.isTruncate = 0 ∧
    ((cycleObs (env j) (ts j)).map fun o => (o.logFile, o.src, o.dst, o.tid)) =
      [(s1s2_log, .s1, .s2, TID_S1_S2), (s1s2_log, .s2, .s1, TID_S2_S1),
       (s1s3_log, .s1, .s3, TID_S1_S3), (s1s3_log, .s3, .s1, TID_S3_S1),
       (s2s3_log, .s2, .s3, TID_S2_S3), (s2s3_log, .s3, .s2, TID_S3_S2)] := by
  refine ⟨rfl, ?_, rfl⟩
  have hdrop : (programTrace env ts k).drop 3 =
      startupEvents.drop 3 ++ pollEvents env ts k := by
    have h3 : (3 : Nat) ≤ startupEvents.length := by
      have : startupEvents.length = 30 := rfl
      omega
    simp [programTrace, List.drop_append_eq_append_drop,
      Nat.sub_eq_zero_of_le h3]
  rw [hdrop, List.countP_append, pollEvents_truncate_free]
  rfl

/-- C4: a pipeline push on a device precedes every forwarding-rule write to
that device: any prefix of the run's trace containing a rule write to a
switch already contains that switch's `SetForwardingPipelineConfig`. -/
theorem C4_pipeline_before_rule_writes (env : Nat → Env)
    (ts : Nat → Nat → String) (k n : Nat) (sw : Switch)
    (h : 0 < ((programTrace env ts k).take n).countP (isRuleWriteTo sw)) :
    0 < ((programTrace env ts k).take n).countP (isPipelinePush sw) := by
  have hsplit : programTrace env ts k = provisioningPrefixEvents ++
      (installedRules.map Event.writeRule ++ pollEvents env ts k) := by
    simp [programTrace, startupEvents]
  have hlen9 : provisioningPrefixEvents.length = 9 := rfl
  rw [hsplit, List.take_append_eq_append_take, List.countP_append] at h ⊢
  rcases le_or_lt n 9 with hn | hn
  · exfalso
    have hpre : (provisioningPrefixEvents.take n).countP (isRuleWriteTo sw)
        = 0 := by
      have hle := (List.take_sublist n provisioningPrefixEvents).countP_le
        (isRuleWriteTo sw)
      have hfull : provisioningPrefixEvents.countP (isRuleWriteTo sw) = 0 := by
        cases sw <;> rfl
      omega
    have hz : n - provisioningPrefixEvents.length = 0 := by
      rw [hlen9]; omega
    rw [hz] at h
    simp [hpre] at h
  · have htake : provisioningPrefixEvents.take n = provisioningPrefixEvents :=
      List.take_of_length_le (by omega)
    rw [htake]
    have hone : provisioningPrefixEvents.countP (isPipelinePush sw) = 1 := by
      cases sw <;> rfl
    omega

/-- Cycle-indexed environment where every read returns no entry. -/
def envCycles : Nat → Env := fun _ => envEmpty

/-- Cycle-indexed timestamps, constant. -/
def tsCycles : Nat → Nat → String := fun _ => tsConst

/-- Witness for C4: the first 10 trace events contain a rule write to `s1`
and, as the theorem concludes, also `s1`'s pipeline push. -/
theorem C4_pipeline_before_rule_writes_witness :
    0 < ((programTrace envCycles tsCycles 0).take 10).countP
      (isPipelinePush .s1) :=
  C4_pipeline_before_rule_writes envCycles tsCycles 0 10 .s1 (by decide)

/-- Counterexample to C9 as stated: when the `try` block is left by an
exception other than `KeyboardInterrupt` and `grpc.RpcError`, no `except`
clause matches and there is no `finally`, so `ShutdownAllSwitchConnections`
is not executed before the process leaves `main`. -/
theorem C9_shutdown_skipped_cex :
    ¬ ("ShutdownAllSwitchConnections" ∈ mainExitActions .otherException) := by
  decide

/-- C9 amended: device handles are released on a normal interrupt
(`KeyboardInterrupt`) and on a transport failure (`grpc.RpcError`) —
`ShutdownAllSwitchConnections` runs before `main` is left — but any other
exception propagates out of `main` without the handles being released. -/
theorem C9_shutdown_on_exit :
    "ShutdownAllSwitchConnections" ∈ mainExitActions .keyboardInterrupt ∧
    "ShutdownAllSwitchConnections" ∈ mainExitActions .rpcError ∧
    ¬ ("ShutdownAllSwitchConnections" ∈ mainExitActions .otherException) := by
  decide

end SDN
